import Mathlib

/-!
Shallow embedding of `main.py`, a LINE messaging bot that walks a user
through a fixed list of rental-housing questions and then asks a text
generation service for recommendations.

Python strings become `String`, the global dict `user_states` becomes an
association list `SessionMap`, the blocking OpenAI call becomes an
explicit oracle `GenService := String → Except Unit String` (an `error`
value models the call raising an exception), and each side effect
(`line_bot_api.reply_message`, the generation request) is recorded in the
result of the event handler so that theorems can speak about it.
-/

/-- Python `str.strip()` whitespace test, restricted to the ASCII
whitespace characters. -/
def isPySpace (c : Char) : Bool :=
  c == ' ' || c == '\t' || c == '\n' || c == '\r' || c == '\x0b' || c == '\x0c'

/-- Strip leading and trailing whitespace from a character list. -/
def pyStripList (l : List Char) : List Char :=
  ((l.dropWhile isPySpace).reverse.dropWhile isPySpace).reverse

/-- Python `str.strip()`. -/
def pyStrip (s : String) : String :=
  ⟨pyStripList s.data⟩

/-- Whether `sep` is a prefix of the first list (Boolean, executable). -/
def listHasPrefix : List Char → List Char → Bool
  | _, [] => true
  | [], _ :: _ => false
  | a :: as, b :: bs => a == b && listHasPrefix as bs

/-- Fuelled worker for Python `str.split(sep)` with a non-empty separator:
scans left to right, cutting at each non-overlapping occurrence of `sep`.
The fuel is the length of the input, which one step always consumes. -/
def pySplitFuel (sep : List Char) : Nat → List Char → List Char → List (List Char)
  | 0, l, acc => [acc.reverse ++ l]
  | n + 1, l, acc =>
    match l with
    | [] => [acc.reverse]
    | c :: rest =>
      if listHasPrefix l sep then
        acc.reverse :: pySplitFuel sep n (l.drop sep.length) []
      else
        pySplitFuel sep n rest (c :: acc)

/-- Python `s.split(sep)` for a non-empty separator substring. -/
def pySplit (s sep : String) : List String :=
  (pySplitFuel sep.data s.data.length s.data []).map (fun l => ⟨l⟩)

/-- The fixed question list `QUESTIONS` of `main.py`. -/
def QUESTIONS : List String :=
  [ "希望エリアはどちらですか？（例：品川、新宿など）",
    "家賃の上限を教えてください。（例：10万円）",
    "間取りの希望を教えてください。（例：1LDK、2DKなど）",
    "駅から徒歩何分以内が良いですか？",
    "築年数の希望はありますか？（例：新築〜10年以内など）",
    "ペット可などの条件はありますか？",
    "職場（学校）までの通勤時間の希望はありますか？",
    "どんなライフスタイルですか？（静かに過ごしたい／駅近重視など）",
    "重視するポイントは？（家賃・広さ・場所・築年数など）",
    "入居希望時期はいつ頃ですか？" ]

/-- The number of questions (`len(QUESTIONS)`, which is 10). -/
def N : Nat := QUESTIONS.length

/-- One session value of the `user_states` dict:
`{"index": ..., "answers": [(question, answer), ...]}`. -/
structure Session where
  index : Nat
  answers : List (String × String)
deriving DecidableEq

/-- The `user_states` dict, as an association list from user id to session. -/
abbrev SessionMap := List (String × Session)

/-- Dict lookup `user_states.get(user_id)`. -/
def mapLookup : SessionMap → String → Option Session
  | [], _ => none
  | (k, v) :: rest, u => if k = u then some v else mapLookup rest u

/-- Dict write `user_states[user_id] = s` (overwrites in place). -/
def mapInsert : SessionMap → String → Session → SessionMap
  | [], u, s => [(u, s)]
  | (k, v) :: rest, u, s => if k = u then (u, s) :: rest else (k, v) :: mapInsert rest u s

/-- Dict delete `del user_states[user_id]`. -/
def mapErase : SessionMap → String → SessionMap
  | [], _ => []
  | (k, v) :: rest, u => if k = u then rest else (k, v) :: mapErase rest u

/-- Fallback text returned by `summarize_with_gpt` for an empty answer list. -/
def FALLBACK_EMPTY : String :=
  "まだ回答が入力されていないので、おすすめ物件を出せませんでした。もう一度「開始」と送ってやり直してください。"

/-- Fallback segment returned by `split_recommendations` when no block survives. -/
def FALLBACK_SPLIT : String :=
  "おすすめ物件をうまく生成できませんでした。もう一度お試しください。"

/-- One `Qi: question / Ai: answer` block of the prompt body. -/
def qa_line (i : Nat) (qa : String × String) : String :=
  "Q" ++ toString i ++ ": " ++ qa.1 ++ "\n" ++ "A" ++ toString i ++ ": " ++ qa.2 ++ "\n\n"

/-- The `qa_text` accumulator of `summarize_with_gpt`: the blocks for the
answers, numbered from 1. -/
def qa_text (answers : List (String × String)) : String :=
  String.join (answers.enum.map (fun p => qa_line (p.1 + 1) p.2))

/-- The prompt f-string of `summarize_with_gpt`. -/
def build_prompt (answers : List (String × String)) : String :=
  "\n以下は、賃貸物件を探しているユーザーの希望条件です。\n" ++
  "この情報をもとに、日本の一般的な賃貸市場を想定して、\n" ++
  "ユーザーに合いそうな「仮想の」おすすめ物件を3件提案してください。\n\n" ++
  "それぞれについて、\n- 物件名（仮でOK）\n- 家賃の目安\n- 間取り\n- 最寄り駅と徒歩分数\n- ユーザーの希望にマッチしている理由\n\n" ++
  "を、箇条書きでわかりやすく日本語で説明してください。\n\n" ++
  "ユーザーの回答は次のとおりです：\n\n" ++
  qa_text answers ++ "\n"

/-- The external text-generation service: maps a prompt to the generated
text, or to `error` when the call raises. -/
abbrev GenService := String → Except Unit String

/-- `summarize_with_gpt` of `main.py`. The first component records the
prompts actually sent to the generation service (empty when the
answer list is empty, because the function returns early). -/
def summarize_with_gpt (gen : GenService) (answers : List (String × String)) :
    List String × Except Unit String :=
  if answers = [] then ([], Except.ok FALLBACK_EMPTY)
  else ([build_prompt answers], gen (build_prompt answers))

/-- `split_recommendations` of `main.py`: split the generated text on
`###`, strip each block, drop the blank ones; fall back to a fixed
message when nothing remains, else keep the first block verbatim and
re-prefix the rest with `### `. -/
def split_recommendations (text : String) : List String :=
  let blocks := ((pySplit text "###").map pyStrip).filter (fun b => b ≠ "")
  match blocks with
  | [] => [FALLBACK_SPLIT]
  | b :: rest => b :: rest.map (fun block => "### " ++ block)

/-- Introductory instructions of the start reply. -/
def START_INTRO : String :=
  "不動産診断を開始します！\n\n" ++
  "これからいくつか質問をするので、順番に回答してください。\n" ++
  "途中でやめたいときは「終了」と送ってください。\n\n"

/-- The full start reply: instructions followed by `Q1. <first question>`. -/
def startMsg : String := START_INTRO ++ "Q1. " ++ QUESTIONS.getD 0 ""

/-- Reply sent to a user who has no session and did not send the start keyword. -/
def PLEASE_START : String := "不動産診断を始めるには「開始」と送ってください。"

/-- Reply `Q<idx+1>. <QUESTIONS[idx]>` asking the question at `idx`. -/
def qPrompt (idx : Nat) : String :=
  "Q" ++ toString (idx + 1) ++ ". " ++ QUESTIONS.getD idx ""

/-- Result of handling one text-message event: the `user_states` dict
afterwards, the `reply_message` calls made (each one a list of message
texts), the prompts sent to the generation service, and whether an
exception propagated out of the handler. -/
structure HandleResult where
  states : SessionMap
  replies : List (List String)
  genCalls : List String
  error : Bool
deriving DecidableEq

/-- The per-event body of the `callback` webhook handler of `main.py`,
for one text message from `user_id` with raw text `rawText`. -/
def handleEvent (gen : GenService) (states : SessionMap)
    (user_id rawText : String) : HandleResult :=
  let text := pyStrip rawText
  if text = "開始" then
    { states := mapInsert states user_id ⟨0, []⟩
      replies := [[startMsg]], genCalls := [], error := false }
  else
    match mapLookup states user_id with
    | none =>
      { states := states, replies := [[PLEASE_START]], genCalls := [], error := false }
    | some st =>
      if text = "終了" then
        match summarize_with_gpt gen st.answers with
        | (calls, Except.error _) =>
          { states := states, replies := [], genCalls := calls, error := true }
        | (calls, Except.ok reply_text) =>
          { states := mapErase states user_id
            replies := [split_recommendations reply_text]
            genCalls := calls, error := false }
      else
        let st' : Session :=
          if st.index < N then
            ⟨st.index + 1, st.answers ++ [(QUESTIONS.getD st.index "", text)]⟩
          else st
        let states' := mapInsert states user_id st'
        if st'.index < N then
          { states := states', replies := [[qPrompt st'.index]]
            genCalls := [], error := false }
        else
          match summarize_with_gpt gen st'.answers with
          | (calls, Except.error _) =>
            { states := states', replies := [], genCalls := calls, error := true }
          | (calls, Except.ok reply_text) =>
            { states := mapErase states' user_id
              replies := [split_recommendations reply_text]
              genCalls := calls, error := false }

/-- One parsed webhook event: a text message with its sender, or any
other event shape (skipped by the handler). -/
inductive Event where
  | textMessage (user_id : String) (text : String)
  | other
deriving DecidableEq

/-- Result of the event loop of `callback`: final `user_states`, all
replies sent, all generation prompts sent, and whether an exception
escaped the loop. -/
structure BatchResult where
  states : SessionMap
  replies : List (List String)
  genCalls : List String
  errored : Bool
deriving DecidableEq

/-- The `for event in events` loop of `callback`. There is no exception
handler inside the loop, so an exception while handling one event stops
the processing of the remaining events. -/
def processEvents (gen : GenService) (states : SessionMap) :
    List Event → BatchResult
  | [] => ⟨states, [], [], false⟩
  | Event.other :: rest => processEvents gen states rest
  | Event.textMessage u t :: rest =>
    let r := handleEvent gen states u t
    if r.error then
      ⟨r.states, r.replies, r.genCalls, true⟩
    else
      let b := processEvents gen r.states rest
      ⟨b.states, r.replies ++ b.replies, r.genCalls ++ b.genCalls, b.errored⟩

/-- The `callback` endpoint after signature parsing succeeded: runs the
event loop and returns `some "OK"` only when no exception escaped
(an escaped exception makes the HTTP layer answer with an error
instead of the acknowledgment). -/
def callback (gen : GenService) (states : SessionMap) (events : List Event) :
    BatchResult × Option String :=
  let b := processEvents gen states events
  (b, if b.errored then none else some "OK")

/-- A generation service whose call always raises. -/
def failGen : GenService := fun _ => Except.error ()

/-- A generation service that always returns the given text. -/
def constGen (t : String) : GenService := fun _ => Except.ok t

/-- The segmentation rule as the specification words it: split on `###`,
strip the fragments and drop the empty ones; when no fragment remains
return the single fixed failure segment, otherwise return the first
fragment verbatim followed by the remaining fragments each prefixed
with `### `. -/
def ref_segmentation (t : String) : List String :=
  let fragments := ((pySplit t "###").map pyStrip).filter (fun f => f ≠ "")
  if fragments = [] then [FALLBACK_SPLIT]
  else fragments.headD "" :: fragments.tail.map (fun f => "### " ++ f)

/-- The session invariant of the data model: the index is between 0 and
the number of questions, and the answers recorded so far are exactly one
per already-answered question. -/
def SessionInv (s : Session) : Prop :=
  0 ≤ s.index ∧ s.index ≤ N ∧ s.answers.length = s.index

instance (s : Session) : Decidable (SessionInv s) := by
  unfold SessionInv
  infer_instance

/-- Every session stored in the map satisfies the session invariant. -/
def MapInv (m : SessionMap) : Prop :=
  ∀ p ∈ m, SessionInv p.2

instance (m : SessionMap) : Decidable (MapInv m) := by
  unfold MapInv
  infer_instance

/-! ### Helper lemmas about the association-list dictionary -/

theorem mapLookup_insert (m : SessionMap) (u : String) (s : Session) :
    mapLookup (mapInsert m u s) u = some s := by
  induction m with
  | nil => simp [mapInsert, mapLookup]
  | cons p rest ih =>
    obtain ⟨k, v⟩ := p
    by_cases h : k = u
    · simp [mapInsert, mapLookup, h]
    · simp [mapInsert, mapLookup, h, ih]

/-! ### Stripping is idempotent -/

theorem dropWhile_idem (p : Char → Bool) (l : List Char) :
    (l.dropWhile p).dropWhile p = l.dropWhile p := by
  induction l with
  | nil => rfl
  | cons a t ih =>
    by_cases h : p a
    · simp [List.dropWhile_cons, h, ih]
    · simp [List.dropWhile_cons, h]

theorem dropWhile_eq_self_of_prefix (p : Char → Bool) {l₁ l₂ : List Char}
    (h : l₁ <+: l₂) (h₂ : l₂.dropWhile p = l₂) : l₁.dropWhile p = l₁ := by
  cases l₁ with
  | nil => rfl
  | cons a t =>
    obtain ⟨s, hs⟩ := h
    subst hs
    by_cases hp : p a
    · exfalso
      rw [List.cons_append, List.dropWhile_cons_of_pos hp] at h₂
      have hlen := congrArg List.length h₂
      have hle := List.Sublist.length_le (List.dropWhile_sublist (l := t ++ s) p)
      rw [List.length_cons] at hlen
      omega
    · rw [List.dropWhile_cons_of_neg hp]

theorem pyStripList_idem (l : List Char) : pyStripList (pyStripList l) = pyStripList l := by
  unfold pyStripList
  set p := isPySpace
  set d := l.dropWhile p with hd
  set r := ((d.reverse.dropWhile p).reverse : List Char) with hr
  have hpre : r <+: d := by
    have hsuf : d.reverse.dropWhile p <:+ d.reverse := List.dropWhile_suffix p
    have := List.reverse_prefix.mpr hsuf
    rwa [List.reverse_reverse] at this
  have hdfix : d.dropWhile p = d := by
    rw [hd]; exact dropWhile_idem p l
  have hrfix : r.dropWhile p = r := dropWhile_eq_self_of_prefix p hpre hdfix
  rw [hrfix]
  have hrev : r.reverse.dropWhile p = r.reverse := by
    rw [hr, List.reverse_reverse]
    exact dropWhile_idem p d.reverse
  rw [hrev, hr, List.reverse_reverse]

theorem pyStrip_idem (s : String) : pyStrip (pyStrip s) = pyStrip s := by
  unfold pyStrip
  exact congrArg String.mk (pyStripList_idem s.data)
theorem handleEvent_start (gen : GenService) (states : SessionMap) (uid raw : String)
    (h : pyStrip raw = "開始") :
    handleEvent gen states uid raw =
      { states := mapInsert states uid ⟨0, []⟩, replies := [[startMsg]],
        genCalls := [], error := false } := by
  unfold handleEvent
  rw [h]
  simp

theorem handleEvent_noSession (gen : GenService) (states : SessionMap) (uid raw : String)
    (hnone : mapLookup states uid = none) (h : pyStrip raw ≠ "開始") :
    handleEvent gen states uid raw =
      { states := states, replies := [[PLEASE_START]], genCalls := [], error := false } := by
  unfold handleEvent
  rw [if_neg h, hnone]

theorem handleEvent_stop (gen : GenService) (states : SessionMap) (uid raw : String)
    (st : Session) (hlook : mapLookup states uid = some st) (h : pyStrip raw = "終了") :
    handleEvent gen states uid raw =
      (match summarize_with_gpt gen st.answers with
       | (calls, Except.error _) =>
         { states := states, replies := [], genCalls := calls, error := true }
       | (calls, Except.ok reply_text) =>
         { states := mapErase states uid
           replies := [split_recommendations reply_text]
           genCalls := calls, error := false }) := by
  unfold handleEvent
  rw [h, if_neg (by decide : ¬ ("終了" : String) = "開始"), hlook]
  simp only []
  simp only [if_true]

theorem handleEvent_answer (gen : GenService) (states : SessionMap) (uid raw : String)
    (st : Session) (hlook : mapLookup states uid = some st)
    (hstart : pyStrip raw ≠ "開始") (hstop : pyStrip raw ≠ "終了") (hidx : st.index < N) :
    handleEvent gen states uid raw =
      (let st' : Session := ⟨st.index + 1, st.answers ++ [(QUESTIONS.getD st.index "", pyStrip raw)]⟩
       let states' := mapInsert states uid st'
       if st'.index < N then
         { states := states', replies := [[qPrompt st'.index]], genCalls := [], error := false }
       else
         match summarize_with_gpt gen st'.answers with
         | (calls, Except.error _) =>
           { states := states', replies := [], genCalls := calls, error := true }
         | (calls, Except.ok reply_text) =>
           { states := mapErase states' uid
             replies := [split_recommendations reply_text]
             genCalls := calls, error := false }) := by
  unfold handleEvent
  rw [if_neg hstart, hlook]
  simp only []
  rw [if_neg hstop]
  simp only [if_pos hidx]

/-! ### Claim C3: segmentation matches the specification's description -/

/-- C3: for every input string, `split_recommendations` agrees with the
reference segmentation written from the specification: split on `###`,
strip and drop empty fragments, fall back to the fixed failure segment
when nothing remains, otherwise emit the first fragment verbatim and
each later fragment prefixed with `### `. In particular
`"intro ### item1 ### item2"` yields `["intro", "### item1", "### item2"]`,
and delimiter-free non-blank input yields the single trimmed segment. -/
theorem C3_split_matches_spec :
    (∀ t : String, split_recommendations t = ref_segmentation t) ∧
    split_recommendations "intro ### item1 ### item2" = ["intro", "### item1", "### item2"] ∧
    (∀ t : String, pySplit t "###" = [t] → pyStrip t ≠ "" →
      split_recommendations t = [pyStrip t]) := by
  refine ⟨?_, by decide, ?_⟩
  · intro t
    unfold split_recommendations ref_segmentation
    cases h : ((pySplit t "###").map pyStrip).filter (fun b => b ≠ "") with
    | nil => simp [h]
    | cons b rest => simp [h]
  · intro t h hne
    unfold split_recommendations
    rw [h]
    simp [hne]

/-- Witness for C3 at the concrete delimiter-free input `"hello"`. -/
theorem C3_split_matches_spec_witness :
    pySplit "hello" "###" = ["hello"] ∧ pyStrip "hello" ≠ "" ∧
    split_recommendations "hello" = [pyStrip "hello"] :=
  ⟨by decide, by decide, C3_split_matches_spec.2.2 "hello" (by decide) (by decide)⟩

/-! ### Claim C7: the start keyword always creates a fresh session -/

/-- C7: for every user and every prior session map, a message whose
stripped text is the start keyword overwrites the user's session with
index 0 and no answers, and replies with one message consisting of the
introductory instructions followed by `Q1. ` and the first question. -/
theorem C7_start_creates_session (gen : GenService) (states : SessionMap)
    (uid raw : String) (h : pyStrip raw = "開始") :
    handleEvent gen states uid raw =
      { states := mapInsert states uid ⟨0, []⟩
        replies := [[START_INTRO ++ "Q1. " ++ QUESTIONS.getD 0 ""]]
        genCalls := [], error := false } :=
  handleEvent_start gen states uid raw h

/-- Witness for C7: sending `" 開始 "` while a session is in progress
resets it to index 0 with no answers. -/
theorem C7_start_creates_session_witness :
    handleEvent failGen [("u", ⟨1, [("q", "a")]⟩)] "u" " 開始 " =
      { states := [("u", ⟨0, []⟩)]
        replies := [[START_INTRO ++ "Q1. " ++ QUESTIONS.getD 0 ""]]
        genCalls := [], error := false } := by
  rw [C7_start_creates_session failGen [("u", ⟨1, [("q", "a")]⟩)] "u" " 開始 " (by decide)]
  decide

/-! ### Claim C8: without a session, any non-start text gets the instruction -/

/-- C8: for every user absent from the session map, a message whose
stripped text is not the start keyword (the stop keyword included) is
answered with exactly the single instructional reply, and the session
map is left unchanged. -/
theorem C8_no_session_instruction (gen : GenService) (states : SessionMap)
    (uid raw : String) (hnone : mapLookup states uid = none)
    (h : pyStrip raw ≠ "開始") :
    handleEvent gen states uid raw =
      { states := states, replies := [[PLEASE_START]], genCalls := [], error := false } :=
  handleEvent_noSession gen states uid raw hnone h

/-- Witness for C8: the stop keyword from a user with no session gets the
instructional reply and creates nothing. -/
theorem C8_no_session_instruction_witness :
    handleEvent failGen [("v", ⟨2, [("q1", "a1"), ("q2", "a2")]⟩)] "u" "終了" =
      { states := [("v", ⟨2, [("q1", "a1"), ("q2", "a2")]⟩)]
        replies := [[PLEASE_START]], genCalls := [], error := false } :=
  C8_no_session_instruction failGen [("v", ⟨2, [("q1", "a1"), ("q2", "a2")]⟩)]
    "u" "終了" (by decide) (by decide)

set_option maxRecDepth 8000

/-! ### Claim C1: answering a question advances the session -/

/-- C1: with a session at index `i < N` and a stripped text that is
neither the start nor the stop keyword, the handler appends
`(question[i], text)` to the answers and sets the index to `i + 1`;
when `i + 1 < N` it replies with the single message `Q<i+2>. ` followed
by `question[i+1]` (the `qPrompt` of the new index), and when
`i + 1 = N` it finalizes: it sends exactly one generation call built
from the extended answers and, when that call returns text `s`, replies
with the segments of `s` and destroys the session. -/
theorem C1_answer_advances (gen : GenService) (states : SessionMap)
    (uid raw : String) (st : Session)
    (hlook : mapLookup states uid = some st) (hidx : st.index < N)
    (hstart : pyStrip raw ≠ "開始") (hstop : pyStrip raw ≠ "終了") :
    (st.index + 1 < N →
      handleEvent gen states uid raw =
        { states := mapInsert states uid
            ⟨st.index + 1, st.answers ++ [(QUESTIONS.getD st.index "", pyStrip raw)]⟩
          replies := [[qPrompt (st.index + 1)]], genCalls := [], error := false }) ∧
    (st.index + 1 = N →
      (handleEvent gen states uid raw).genCalls =
        [build_prompt (st.answers ++ [(QUESTIONS.getD st.index "", pyStrip raw)])] ∧
      ∀ s, gen (build_prompt (st.answers ++ [(QUESTIONS.getD st.index "", pyStrip raw)])) = Except.ok s →
        handleEvent gen states uid raw =
          { states := mapErase (mapInsert states uid
              ⟨st.index + 1, st.answers ++ [(QUESTIONS.getD st.index "", pyStrip raw)]⟩) uid
            replies := [split_recommendations s]
            genCalls := [build_prompt (st.answers ++ [(QUESTIONS.getD st.index "", pyStrip raw)])]
            error := false }) := by
  have hb := handleEvent_answer gen states uid raw st hlook hstart hstop hidx
  rw [hb]
  simp only []
  constructor
  · intro hlt
    rw [if_pos hlt]
  · intro heq
    have hge : ¬ (st.index + 1 < N) := by omega
    rw [if_neg hge]
    have hne : ¬ (st.answers ++ [(QUESTIONS.getD st.index "", pyStrip raw)] = []) := by
      simp
    unfold summarize_with_gpt
    rw [if_neg hne]
    cases hgen : gen (build_prompt (st.answers ++ [(QUESTIONS.getD st.index "", pyStrip raw)])) with
    | error e =>
      constructor
      · rfl
      · intro s hs
        exact absurd hs (by simp)
    | ok s0 =>
      constructor
      · rfl
      · intro s hs
        injection hs with h
        subst h
        rfl

/-- Witness for C1: the first answer of a fresh session is recorded
stripped and the second question is asked. -/
theorem C1_answer_advances_witness :
    handleEvent failGen [("u", ⟨0, []⟩)] "u" " 品川 " =
      { states := [("u", ⟨1, [(QUESTIONS.getD 0 "", "品川")]⟩)]
        replies := [[qPrompt 1]], genCalls := [], error := false } := by
  have h := (C1_answer_advances failGen [("u", ⟨0, []⟩)] "u" " 品川 " ⟨0, []⟩
    (by decide) (by decide) (by decide) (by decide)).1 (by decide)
  rw [h]
  decide

/-! ### Claim C2: the stop keyword finalizes with the accumulated answers -/

/-- C2: with any existing session, a message whose stripped text is the
stop keyword finalizes with exactly the answers accumulated so far: the
generation calls of the handler are exactly those of
`summarize_with_gpt` on those answers, and whenever that call returns
text `s` the handler replies with the segments of `s` and removes the
user's session from the map. -/
theorem C2_stop_finalizes (gen : GenService) (states : SessionMap)
    (uid raw : String) (st : Session)
    (hlook : mapLookup states uid = some st) (hstop : pyStrip raw = "終了") :
    (handleEvent gen states uid raw).genCalls = (summarize_with_gpt gen st.answers).1 ∧
    (∀ s, (summarize_with_gpt gen st.answers).2 = Except.ok s →
      handleEvent gen states uid raw =
        { states := mapErase states uid
          replies := [split_recommendations s]
          genCalls := (summarize_with_gpt gen st.answers).1
          error := false }) := by
  have hb := handleEvent_stop gen states uid raw st hlook hstop
  rw [hb]
  cases hsum : summarize_with_gpt gen st.answers with
  | mk calls res =>
    cases res with
    | error e =>
      constructor
      · rfl
      · intro s hs
        exact absurd hs (by simp)
    | ok r =>
      constructor
      · rfl
      · intro s hs
        injection hs with h
        subst h
        rfl

/-- Witness for C2: stopping after one answer generates from that answer,
replies with the segments and destroys the session. -/
theorem C2_stop_finalizes_witness :
    handleEvent (constGen "intro ### item1 ### item2") [("u", ⟨1, [("q", "a")]⟩)] "u" " 終了 " =
      { states := [], replies := [["intro", "### item1", "### item2"]]
        genCalls := [build_prompt [("q", "a")]], error := false } := by
  have h := (C2_stop_finalizes (constGen "intro ### item1 ### item2")
      [("u", ⟨1, [("q", "a")]⟩)] "u" " 終了 " ⟨1, [("q", "a")]⟩ (by decide) (by decide)).2
      "intro ### item1 ### item2" (by rfl)
  rw [h]
  decide

/-! ### Claim C6: finalizing with no answers never calls the generator -/

/-- C6: a finalization with an empty answer list makes no generation
call (`summarize_with_gpt` returns the fixed restart fallback without
consulting the service) and the reply is exactly that one fallback
segment; in the handler this is the stop keyword on a session with no
answers, which also removes the session. -/
theorem C6_empty_finalize_no_gen (gen : GenService) (states : SessionMap)
    (uid raw : String) (st : Session) :
    summarize_with_gpt gen [] = ([], Except.ok FALLBACK_EMPTY) ∧
    split_recommendations FALLBACK_EMPTY = [FALLBACK_EMPTY] ∧
    (mapLookup states uid = some st → pyStrip raw = "終了" → st.answers = [] →
      handleEvent gen states uid raw =
        { states := mapErase states uid, replies := [[FALLBACK_EMPTY]]
          genCalls := [], error := false }) := by
  have hsp : split_recommendations FALLBACK_EMPTY = [FALLBACK_EMPTY] := by decide
  refine ⟨rfl, hsp, ?_⟩
  intro hlook hstop hemp
  have hb := handleEvent_stop gen states uid raw st hlook hstop
  rw [hb, hemp]
  simp only [summarize_with_gpt, if_true]
  rw [hsp]

/-- Witness for C6: stopping immediately after start replies with the
restart fallback only and calls no generation service. -/
theorem C6_empty_finalize_no_gen_witness :
    handleEvent failGen [("u", ⟨0, []⟩)] "u" "終了" =
      { states := [], replies := [[FALLBACK_EMPTY]], genCalls := [], error := false } := by
  have h := (C6_empty_finalize_no_gen failGen [("u", ⟨0, []⟩)] "u" "終了" ⟨0, []⟩).2.2
    (by decide) (by decide) (by decide)
  rw [h]
  decide

/-! ### Invariant machinery for the session map -/

theorem handleEvent_answer_overflow (gen : GenService) (states : SessionMap)
    (uid raw : String) (st : Session) (hlook : mapLookup states uid = some st)
    (hstart : pyStrip raw ≠ "開始") (hstop : pyStrip raw ≠ "終了")
    (hidx : ¬ st.index < N) :
    handleEvent gen states uid raw =
      (match summarize_with_gpt gen st.answers with
       | (calls, Except.error _) =>
         { states := mapInsert states uid st, replies := [], genCalls := calls, error := true }
       | (calls, Except.ok reply_text) =>
         { states := mapErase (mapInsert states uid st) uid
           replies := [split_recommendations reply_text]
           genCalls := calls, error := false }) := by
  unfold handleEvent
  rw [if_neg hstart, hlook]
  simp only []
  rw [if_neg hstop]
  simp only [if_neg hidx]

theorem mem_mapInsert (p : String × Session) (u : String) (s : Session) :
    ∀ m : SessionMap, p ∈ mapInsert m u s → p = (u, s) ∨ p ∈ m := by
  intro m
  induction m with
  | nil =>
    intro h
    simp [mapInsert] at h
    left
    exact h
  | cons q rest ih =>
    obtain ⟨k, v⟩ := q
    intro h
    unfold mapInsert at h
    by_cases hk : k = u
    · rw [if_pos hk] at h
      rcases List.mem_cons.mp h with h | h
      · left; exact h
      · right; exact List.mem_cons_of_mem _ h
    · rw [if_neg hk] at h
      rcases List.mem_cons.mp h with h | h
      · right; rw [h]; exact List.mem_cons_self _ _
      · rcases ih h with h | h
        · left; exact h
        · right; exact List.mem_cons_of_mem _ h

theorem mem_mapErase (p : String × Session) (u : String) :
    ∀ m : SessionMap, p ∈ mapErase m u → p ∈ m := by
  intro m
  induction m with
  | nil => intro h; simp [mapErase] at h
  | cons q rest ih =>
    obtain ⟨k, v⟩ := q
    intro h
    unfold mapErase at h
    by_cases hk : k = u
    · rw [if_pos hk] at h
      exact List.mem_cons_of_mem _ h
    · rw [if_neg hk] at h
      rcases List.mem_cons.mp h with h | h
      · rw [h]; exact List.mem_cons_self _ _
      · exact List.mem_cons_of_mem _ (ih h)

theorem MapInv_insert {m : SessionMap} {u : String} {s : Session}
    (hm : MapInv m) (hs : SessionInv s) : MapInv (mapInsert m u s) := by
  intro p hp
  rcases mem_mapInsert p u s m hp with h | h
  · rw [h]; exact hs
  · exact hm p h

theorem MapInv_erase {m : SessionMap} {u : String} (hm : MapInv m) :
    MapInv (mapErase m u) := by
  intro p hp
  exact hm p (mem_mapErase p u m hp)

theorem lookup_SessionInv (u : String) (st : Session) :
    ∀ m : SessionMap, MapInv m → mapLookup m u = some st → SessionInv st := by
  intro m
  induction m with
  | nil => intro _ h; simp [mapLookup] at h
  | cons q rest ih =>
    obtain ⟨k, v⟩ := q
    intro hm h
    unfold mapLookup at h
    by_cases hk : k = u
    · rw [if_pos hk] at h
      injection h with h
      rw [← h]
      exact hm (k, v) (List.mem_cons_self _ _)
    · rw [if_neg hk] at h
      exact ih (fun p hp => hm p (List.mem_cons_of_mem _ hp)) h

theorem handleEvent_MapInv (gen : GenService) (states : SessionMap) (uid raw : String)
    (hm : MapInv states) : MapInv (handleEvent gen states uid raw).states := by
  by_cases hstart : pyStrip raw = "開始"
  · rw [handleEvent_start gen states uid raw hstart]
    exact MapInv_insert hm ⟨Nat.zero_le _, Nat.zero_le _, rfl⟩
  · cases hlook : mapLookup states uid with
    | none =>
      rw [handleEvent_noSession gen states uid raw hlook hstart]
      exact hm
    | some st =>
      by_cases hstop : pyStrip raw = "終了"
      · rw [handleEvent_stop gen states uid raw st hlook hstop]
        cases hsum : summarize_with_gpt gen st.answers with
        | mk calls res =>
          cases res with
          | error e => exact hm
          | ok r => exact MapInv_erase hm
      · have hstInv := lookup_SessionInv uid st states hm hlook
        by_cases hidx : st.index < N
        · rw [handleEvent_answer gen states uid raw st hlook hstart hstop hidx]
          simp only []
          have hstInv' : SessionInv
              (⟨st.index + 1, st.answers ++ [(QUESTIONS.getD st.index "", pyStrip raw)]⟩ : Session) := by
            obtain ⟨-, h2, h3⟩ := hstInv
            exact ⟨Nat.zero_le _, Nat.succ_le_of_lt hidx, by simp [h3]⟩
          by_cases hlt : st.index + 1 < N
          · rw [if_pos hlt]
            exact MapInv_insert hm hstInv'
          · rw [if_neg hlt]
            cases hsum : summarize_with_gpt gen
                (st.answers ++ [(QUESTIONS.getD st.index "", pyStrip raw)]) with
            | mk calls res =>
              cases res with
              | error e => exact MapInv_insert hm hstInv'
              | ok r => exact MapInv_erase (MapInv_insert hm hstInv')
        · rw [handleEvent_answer_overflow gen states uid raw st hlook hstart hstop hidx]
          cases hsum : summarize_with_gpt gen st.answers with
          | mk calls res =>
            cases res with
            | error e => exact MapInv_insert hm hstInv
            | ok r => exact MapInv_erase (MapInv_insert hm hstInv)

theorem processEvents_MapInv (gen : GenService) :
    ∀ (events : List Event) (states : SessionMap), MapInv states →
      MapInv (processEvents gen states events).states := by
  intro events
  induction events with
  | nil => intro states hm; exact hm
  | cons e rest ih =>
    intro states hm
    cases e with
    | other => exact ih states hm
    | textMessage u t =>
      simp only [processEvents]
      by_cases herr : (handleEvent gen states u t).error = true
      · rw [if_pos herr]
        exact handleEvent_MapInv gen states u t hm
      · rw [if_neg herr]
        exact ih _ (handleEvent_MapInv gen states u t hm)

/-! ### Claim C9: the session invariant is preserved -/

/-- C9: if every session in the map satisfies `0 ≤ index ≤ N` with the
answers list of length exactly `index`, then after handling any single
message event, and after processing any whole webhook delivery, every
session still satisfies it. -/
theorem C9_session_invariant (gen : GenService) (states : SessionMap)
    (uid raw : String) (events : List Event) (hm : MapInv states) :
    MapInv (handleEvent gen states uid raw).states ∧
    MapInv (processEvents gen states events).states :=
  ⟨handleEvent_MapInv gen states uid raw hm, processEvents_MapInv gen events states hm⟩

/-- Witness for C9 on a concrete session and delivery. -/
theorem C9_session_invariant_witness :
    MapInv (handleEvent failGen [("u", ⟨0, []⟩)] "u" "回答").states ∧
    MapInv (processEvents failGen [("u", ⟨0, []⟩)]
      [Event.textMessage "u" "回答", Event.textMessage "u" "終了"]).states :=
  C9_session_invariant failGen [("u", ⟨0, []⟩)] "u" "回答"
    [Event.textMessage "u" "回答", Event.textMessage "u" "終了"] (by decide)

/-! ### Claim C10: incoming text is stripped before use -/

/-- C10: the handler strips the incoming text before every comparison
and before recording: stripping is idempotent (so a recorded answer has
no leading or trailing whitespace), handling a raw text is identical to
handling its stripped form (so a keyword surrounded by whitespace acts
as the keyword), a recorded answer is exactly the stripped text, and a
whitespace-only message is recorded as the empty-string answer. -/
theorem C10_strip_before_use (gen : GenService) (states : SessionMap)
    (uid raw : String) (st : Session) :
    pyStrip (pyStrip raw) = pyStrip raw ∧
    handleEvent gen states uid raw = handleEvent gen states uid (pyStrip raw) ∧
    (mapLookup states uid = some st → st.index + 1 < N →
      pyStrip raw ≠ "開始" → pyStrip raw ≠ "終了" →
      mapLookup (handleEvent gen states uid raw).states uid =
        some ⟨st.index + 1, st.answers ++ [(QUESTIONS.getD st.index "", pyStrip raw)]⟩) ∧
    (mapLookup states uid = some st → st.index + 1 < N → pyStrip raw = "" →
      mapLookup (handleEvent gen states uid raw).states uid =
        some ⟨st.index + 1, st.answers ++ [(QUESTIONS.getD st.index "", "")]⟩) := by
  have hrec : mapLookup states uid = some st → st.index + 1 < N →
      pyStrip raw ≠ "開始" → pyStrip raw ≠ "終了" →
      mapLookup (handleEvent gen states uid raw).states uid =
        some ⟨st.index + 1, st.answers ++ [(QUESTIONS.getD st.index "", pyStrip raw)]⟩ := by
    intro hlook hlt hstart hstop
    have hidx : st.index < N := Nat.lt_of_succ_lt hlt
    rw [handleEvent_answer gen states uid raw st hlook hstart hstop hidx]
    simp only []
    rw [if_pos hlt]
    exact mapLookup_insert states uid _
  refine ⟨pyStrip_idem raw, ?_, hrec, ?_⟩
  · unfold handleEvent
    rw [pyStrip_idem]
  · intro hlook hlt hempty
    have hstart : pyStrip raw ≠ "開始" := by rw [hempty]; decide
    have hstop : pyStrip raw ≠ "終了" := by rw [hempty]; decide
    have h := hrec hlook hlt hstart hstop
    rw [hempty] at h
    exact h

/-- Witness for C10: an all-whitespace message is stripped to the empty
string and recorded as the empty answer. -/
theorem C10_strip_before_use_witness :
    pyStrip (pyStrip "  ") = pyStrip "  " ∧
    handleEvent failGen [("u", ⟨0, []⟩)] "u" "  " =
      handleEvent failGen [("u", ⟨0, []⟩)] "u" (pyStrip "  ") ∧
    mapLookup (handleEvent failGen [("u", ⟨0, []⟩)] "u" "  ").states "u" =
      some ⟨1, [(QUESTIONS.getD 0 "", "")]⟩ := by
  have h := C10_strip_before_use failGen [("u", ⟨0, []⟩)] "u" "  " ⟨0, []⟩
  exact ⟨h.1, h.2.1, h.2.2.2 (by decide) (by decide) (by decide)⟩

/-! ### Claim C4 (corrected): session cleanup depends on the generation outcome -/

/-- C4 counterexample: finalizing a non-empty session while the
generation call fails raises out of the handler before the `del`, so
the session is NOT removed — refuting the claim that finalization
removes the session regardless of generation success or failure. -/
theorem C4_counterexample :
    (handleEvent failGen [("u", ⟨1, [("q", "a")]⟩)] "u" "終了").error = true ∧
    mapLookup (handleEvent failGen [("u", ⟨1, [("q", "a")]⟩)] "u" "終了").states "u" =
      some ⟨1, [("q", "a")]⟩ := by decide

/-- C4 (amended): finalization with a non-empty answer list removes the
session when the generation call succeeds; when the call fails, the
exception propagates before the delete and the session stays in the map
(on the last-question path, with the just-recorded final answer). -/
theorem C4_finalize_cleanup (gen : GenService) (states : SessionMap)
    (uid raw : String) (st : Session) (hlook : mapLookup states uid = some st) :
    (pyStrip raw = "終了" → st.answers ≠ [] →
      ((∃ s, gen (build_prompt st.answers) = Except.ok s) →
        (handleEvent gen states uid raw).states = mapErase states uid ∧
        (handleEvent gen states uid raw).error = false) ∧
      (gen (build_prompt st.answers) = Except.error () →
        (handleEvent gen states uid raw).states = states ∧
        (handleEvent gen states uid raw).error = true)) ∧
    (pyStrip raw ≠ "開始" → pyStrip raw ≠ "終了" → st.index + 1 = N →
      ((∃ s, gen (build_prompt (st.answers ++ [(QUESTIONS.getD st.index "", pyStrip raw)])) =
          Except.ok s) →
        (handleEvent gen states uid raw).states =
          mapErase (mapInsert states uid
            ⟨st.index + 1, st.answers ++ [(QUESTIONS.getD st.index "", pyStrip raw)]⟩) uid ∧
        (handleEvent gen states uid raw).error = false) ∧
      (gen (build_prompt (st.answers ++ [(QUESTIONS.getD st.index "", pyStrip raw)])) =
          Except.error () →
        (handleEvent gen states uid raw).states =
          mapInsert states uid
            ⟨st.index + 1, st.answers ++ [(QUESTIONS.getD st.index "", pyStrip raw)]⟩ ∧
        (handleEvent gen states uid raw).error = true)) := by
  constructor
  · intro hstop hne
    rw [handleEvent_stop gen states uid raw st hlook hstop]
    unfold summarize_with_gpt
    rw [if_neg hne]
    cases hgen : gen (build_prompt st.answers) with
    | error e =>
      constructor
      · rintro ⟨s, hs⟩
        exact absurd hs (by simp)
      · intro _
        exact ⟨rfl, rfl⟩
    | ok s0 =>
      constructor
      · intro _
        exact ⟨rfl, rfl⟩
      · intro habs
        exact absurd habs (by simp)
  · intro hstart hstop heq
    have hidx : st.index < N := heq ▸ Nat.lt_succ_self st.index
    rw [handleEvent_answer gen states uid raw st hlook hstart hstop hidx]
    simp only []
    have hge : ¬ (st.index + 1 < N) := by omega
    rw [if_neg hge]
    have hne : ¬ (st.answers ++ [(QUESTIONS.getD st.index "", pyStrip raw)] = []) := by simp
    unfold summarize_with_gpt
    rw [if_neg hne]
    cases hgen : gen (build_prompt (st.answers ++ [(QUESTIONS.getD st.index "", pyStrip raw)])) with
    | error e =>
      constructor
      · rintro ⟨s, hs⟩
        exact absurd hs (by simp)
      · intro _
        exact ⟨rfl, rfl⟩
    | ok s0 =>
      constructor
      · intro _
        exact ⟨rfl, rfl⟩
      · intro habs
        exact absurd habs (by simp)

/-- Witness for the amended C4 on the success path. -/
theorem C4_finalize_cleanup_witness :
    (handleEvent (constGen "x ### y") [("u", ⟨1, [("q", "a")]⟩)] "u" "終了").states = [] ∧
    (handleEvent (constGen "x ### y") [("u", ⟨1, [("q", "a")]⟩)] "u" "終了").error = false := by
  have h := ((C4_finalize_cleanup (constGen "x ### y") [("u", ⟨1, [("q", "a")]⟩)]
      "u" "終了" ⟨1, [("q", "a")]⟩ (by decide)).1 (by decide) (by decide)).1
    ⟨"x ### y", rfl⟩
  exact ⟨h.1.trans (by decide), h.2⟩

/-! ### Claim C5 (corrected): an event failure aborts the delivery -/

/-- C5 counterexample: with two events in one delivery, a generation
failure while handling the first event leaves the second event
unprocessed (no session is created for its sender and no reply is sent)
and the webhook handler does not return the success acknowledgment —
refuting the claim that a failure is local to its event. -/
theorem C5_counterexample :
    (callback failGen [("u", ⟨1, [("q", "a")]⟩)]
        [Event.textMessage "u" "終了", Event.textMessage "v" "開始"]).2 = none ∧
    mapLookup (callback failGen [("u", ⟨1, [("q", "a")]⟩)]
        [Event.textMessage "u" "終了", Event.textMessage "v" "開始"]).1.states "v" = none ∧
    (callback failGen [("u", ⟨1, [("q", "a")]⟩)]
        [Event.textMessage "u" "終了", Event.textMessage "v" "開始"]).1.replies = [] := by
  decide

/-- C5 (amended): an exception raised while handling one event aborts
the remaining events of the same delivery and the success
acknowledgment is not returned; the acknowledgment is returned exactly
when every event of the delivery is processed without an exception. -/
theorem C5_event_failure_aborts_delivery (gen : GenService) (states : SessionMap)
    (u t : String) (rest : List Event)
    (h : (handleEvent gen states u t).error = true) :
    processEvents gen states (Event.textMessage u t :: rest) =
      ⟨(handleEvent gen states u t).states, (handleEvent gen states u t).replies,
       (handleEvent gen states u t).genCalls, true⟩ ∧
    (callback gen states (Event.textMessage u t :: rest)).2 = none ∧
    (∀ (sts : SessionMap) (evs : List Event),
      (processEvents gen sts evs).errored = false →
      (callback gen sts evs).2 = some "OK") := by
  have h1 : processEvents gen states (Event.textMessage u t :: rest) =
      ⟨(handleEvent gen states u t).states, (handleEvent gen states u t).replies,
       (handleEvent gen states u t).genCalls, true⟩ := by
    simp only [processEvents]
    rw [if_pos h]
  refine ⟨h1, ?_, ?_⟩
  · unfold callback
    rw [h1]
    rfl
  · intro sts evs hok
    unfold callback
    simp only []
    rw [hok]
    rfl

/-- Witness for the amended C5 at a concrete failing delivery. -/
theorem C5_event_failure_aborts_delivery_witness :
    processEvents failGen [("u", ⟨1, [("q", "a")]⟩)] [Event.textMessage "u" "終了"] =
      ⟨[("u", ⟨1, [("q", "a")]⟩)], [], [build_prompt [("q", "a")]], true⟩ ∧
    (callback failGen [("u", ⟨1, [("q", "a")]⟩)] [Event.textMessage "u" "終了"]).2 = none := by
  have h := C5_event_failure_aborts_delivery failGen [("u", ⟨1, [("q", "a")]⟩)]
    "u" "終了" [] (by decide)
  exact ⟨h.1.trans (by decide), h.2.1⟩
